import Mathlib

/-!
Shallow embedding of the funretro-export core (src/index.js): the board data
model produced by the Playwright extraction loop in `run`, the vote-threshold
filter, and the two serializers `parseTextFile` and `parseCSV`.  JavaScript
string accumulation (`parsedText += ...`) is modelled by `List.foldl` over the
iterated collection with an explicit string accumulator; JavaScript truthiness
of `messages.length` is modelled as `messages.length ≠ 0`; `parseInt` returning
`NaN` is modelled as `Option.none` (every comparison `NaN >= t` is false, so a
`none` vote count fails the threshold test).
-/

/-- A message of the extracted board model: `{ text, voteCount }` as pushed by
`run` in src/index.js (lines 69-72). -/
structure Message where
  text : String
  voteCount : Int
deriving Repr, DecidableEq

/-- A column of the extracted board model: `{ columnTitle, messages }` as pushed
by `run` in src/index.js (lines 76-79). -/
structure Column where
  columnTitle : String
  messages : List Message
deriving Repr, DecidableEq

/-- The board model handed to the serializers: the trimmed board title together
with the evaluated columns. -/
structure Board where
  title : String
  columns : List Column
deriving Repr, DecidableEq

/-- Concatenation of a list of strings, used to state the layout of the
serializer outputs. -/
def strJoin : List String → String
  | [] => ""
  | s :: rest => s ++ strJoin rest

/-- Translation of `parseTextFile(boardTitle, columnData)` (src/index.js lines
110-132): start from the title line, then for each column emit the header line
when `messages.length` is truthy, one line per message, and a closing blank
line when `messages.length` is truthy. -/
def parseTextFile (boardTitle : String) (columnData : List Column) : String :=
  columnData.foldl (fun parsedText col =>
    let afterHeader :=
      if col.messages.length ≠ 0 then parsedText ++ col.columnTitle ++ " \n" else parsedText
    let afterMessages := col.messages.foldl (fun acc message =>
      acc ++ ("- " ++ message.text ++ " (" ++ toString message.voteCount ++ ") \n")) afterHeader
    if col.messages.length ≠ 0 then afterMessages ++ "\n" else afterMessages)
    (boardTitle ++ " \n\n")

/-- The maximum message-list length over the columns, as computed by
`Math.max.apply(Math, columnData.map(col => col.messages.length))` for a
non-empty `columnData` (lengths are non-negative, so folding from 0 agrees with
the JavaScript maximum). -/
def maxMsgLen (columnData : List Column) : Nat :=
  (columnData.map (fun col => col.messages.length)).foldl max 0

/-- The string appended for column `col` while generating row `i` of the CSV
(src/index.js lines 148-159): the header cell for row 0, otherwise the message
at index `i - 1` or an empty cell. -/
def csvCellSpec (i : Nat) (col : Column) : String :=
  if i = 0 then col.columnTitle ++ ","
  else
    match col.messages[i - 1]? with
    | none => ","
    | some message => message.text ++ " (" ++ toString message.voteCount ++ "),"

/-- Translation of `parseCSV(columnData)` (src/index.js lines 142-167).  For an
empty `columnData`, `Math.max.apply(Math, [])` is `-Infinity`, hence
`max_rows` is `-Infinity` and the row loop never executes: the result is the
empty string.  Otherwise `max_rows` is the maximum message count plus one and
each row appends one cell per column followed by a CRLF terminator. -/
def parseCSV (columnData : List Column) : String :=
  if columnData.isEmpty then ""
  else
    (List.range (maxMsgLen columnData + 1)).foldl (fun parsedText i =>
      (columnData.foldl (fun acc col => acc ++ csvCellSpec i col) parsedText) ++ "\r\n")
      ""

/-- A message element of the rendered page, as seen through the selectors:
the inner text of the vote-count element (`messageVotes`) and of the text
element (`messageText`). -/
structure RawMessage where
  votesText : String
  text : String
deriving Repr, DecidableEq

/-- A column element of the rendered page: the inner text of its header
(`columnHeader`) and its ordered message elements (`messageContainer`). -/
structure RawColumn where
  headerText : String
  messages : List RawMessage
deriving Repr, DecidableEq

/-- The rendered page, as seen through the selectors used by `run`: the inner
text of the board-title element and the ordered column elements. -/
structure Page where
  boardTitleText : String
  columns : List RawColumn
deriving Repr, DecidableEq

/-- The parts of settings.json that `run` reads besides the selectors: the
numeric vote threshold `settings.voteCount`. -/
structure Settings where
  voteCount : Int
deriving Repr, DecidableEq

/-- The two error classes thrown by `run` (src/index.js lines 49 and 92):
the missing-board-title extraction error and the unsupported-file-type
error. -/
inductive RunError where
  | extractionError
  | unsupportedFormat
deriving Repr, DecidableEq

/-- Model of JavaScript `String.prototype.trim()` as applied by the
`node.innerText.trim()` callbacks: whitespace is removed from both ends of the
string.  Defined over the character list so that it evaluates inside the
kernel. -/
def jsTrim (s : String) : String :=
  ⟨((s.toList.dropWhile Char.isWhitespace).reverse.dropWhile Char.isWhitespace).reverse⟩

/-- Equality of `Except` results is decidable when both components are, which
lets concrete runs of the pipeline be checked by evaluation. -/
instance exceptDecEq {ε α : Type} [DecidableEq ε] [DecidableEq α] :
    DecidableEq (Except ε α) := fun a b =>
  match a, b with
  | .error e1, .error e2 => decidable_of_iff (e1 = e2) (by simp)
  | .ok v1, .ok v2 => decidable_of_iff (v1 = v2) (by simp)
  | .error _, .ok _ => isFalse (fun h => Except.noConfusion h)
  | .ok _, .error _ => isFalse (fun h => Except.noConfusion h)

/-- Model of JavaScript `parseInt` on an already-trimmed string: an optional
sign followed by at least one leading decimal digit parses to that integer
(later non-digits are ignored); everything else is `NaN`, modelled as `none`.
Hexadecimal prefixes and other exotic `parseInt` inputs are outside the model;
the code only ever feeds it the trimmed inner text of a vote-count element. -/
def parseIntJS (s : String) : Option Int :=
  let core : List Char → Option Int := fun cs =>
    let digits := cs.takeWhile Char.isDigit
    if digits.isEmpty then none
    else some (Int.ofNat (digits.foldl (fun a c => a * 10 + (c.toNat - 48)) 0))
  match s.toList with
  | '-' :: rest => (core rest).map (fun n => -n)
  | '+' :: rest => core rest
  | cs => core cs

/-- Translation of the inner message loop of `run` (src/index.js lines 63-74):
parse the trimmed vote text; push `{ text, voteCount }` only when
`votes >= settings.voteCount`; a `NaN` vote count (here `none`) fails the
comparison and the message is skipped. -/
def evalMessages (threshold : Int) : List RawMessage → List Message
  | [] => []
  | m :: rest =>
    match parseIntJS (jsTrim m.votesText) with
    | some votes =>
      if threshold ≤ votes then
        ⟨jsTrim m.text, votes⟩ :: evalMessages threshold rest
      else
        evalMessages threshold rest
    | none => evalMessages threshold rest

/-- Translation of the outer column loop of `run` (src/index.js lines 57-80):
every column element becomes a `Column` with its trimmed header text and its
filtered messages; no column is ever skipped. -/
def evalColumns (settings : Settings) (columns : List RawColumn) : List Column :=
  columns.map (fun col => ⟨jsTrim col.headerText, evalMessages settings.voteCount col.messages⟩)

/-- The extraction part of `run` (src/index.js lines 46-80): trim the board
title text; an empty (hence falsy) result throws the extraction error,
otherwise the evaluated columns form the board. -/
def extractBoard (settings : Settings) (page : Page) : Except RunError Board :=
  let boardTitle := jsTrim page.boardTitleText
  if boardTitle = "" then .error .extractionError
  else .ok ⟨boardTitle, evalColumns settings page.columns⟩

/-- The format dispatch of `run` (src/index.js lines 83-95): after a successful
extraction, switch on `argv.fileType`; `"txt"` and `"csv"` serialize the board,
any other value throws the unsupported-file-type error.  The result pairs the
serialized data with the board title, as returned on line 95. -/
def run (settings : Settings) (page : Page) (fileType : String) :
    Except RunError (String × String) :=
  match extractBoard settings page with
  | .error e => .error e
  | .ok board =>
    if fileType = "txt" then .ok (parseTextFile board.title board.columns, board.title)
    else if fileType = "csv" then .ok (parseCSV board.columns, board.title)
    else .error .unsupportedFormat

/-- The orchestrator's CSV path as a function of the board: `parseCSV` receives
only `eval_columns` (src/index.js line 89), never the board title. -/
def toCSV (board : Board) : String :=
  parseCSV board.columns

/-- The two-column board of the spec's Scenario 1 and Scenario 2:
"Went well" holding one message "Shipped X" with 3 votes, and the empty
"Needs work". -/
def scenarioColumns : List Column :=
  [⟨"Went well", [⟨"Shipped X", 3⟩]⟩, ⟨"Needs work", []⟩]

/-- The line the text serializer writes for one message:
a dash, the text, the vote count in parentheses, a trailing space and a
newline. -/
def messageLine (message : Message) : String :=
  "- " ++ message.text ++ " (" ++ toString message.voteCount ++ ") \n"

/-- The text-output block of one column: a header line, one line per message
and a closing blank line when the column has at least one message; nothing at
all when it has none. -/
def columnBlock (col : Column) : String :=
  if col.messages.length ≠ 0 then
    col.columnTitle ++ " \n" ++ strJoin (col.messages.map messageLine) ++ "\n"
  else ""

/-- CSV row `i` of a column list: one cell per column, left to right, each
followed by its separator, then the CRLF terminator. -/
def csvRowOf (cols : List Column) (i : Nat) : String :=
  strJoin (cols.map (csvCellSpec i)) ++ "\r\n"

/-- The CSV header row: each column title followed by a separator, then the
CRLF terminator. -/
def csvHeaderRow (cols : List Column) : String :=
  strJoin (cols.map (fun col => col.columnTitle ++ ",")) ++ "\r\n"

/-- The CSV cell of column `col` at message index `idx`: the formatted message
when it exists, otherwise an empty cell; both carry the trailing separator. -/
def csvDataCell (col : Column) (idx : Nat) : String :=
  match col.messages[idx]? with
  | none => ","
  | some message => message.text ++ " (" ++ toString message.voteCount ++ "),"

/-- CSV data row `r` (1-indexed): for each column, the cell holding the message
at index `r - 1`, then the CRLF terminator. -/
def csvDataRow (cols : List Column) (r : Nat) : String :=
  strJoin (cols.map (fun col => csvDataCell col (r - 1))) ++ "\r\n"

/-- Number of CRLF sequences in a character list, used to count the rows of a
CSV output (every row the serializer emits ends with exactly one CRLF). -/
def crlfSeqs : List Char → Nat
  | '\r' :: '\n' :: rest => crlfSeqs rest + 1
  | _ :: rest => crlfSeqs rest
  | [] => 0

/-- Number of CRLF-terminated rows of a serialized string. -/
def crlfRows (s : String) : Nat :=
  crlfSeqs s.toList

/-- Folding a string accumulator whose step appends `f x` is concatenation of
the mapped pieces after the initial accumulator. -/
theorem foldl_body_join {α : Type} (f : α → String) (body : String → α → String)
    (hb : ∀ s x, body s x = s ++ f x) :
    ∀ (l : List α) (init : String), l.foldl body init = init ++ strJoin (l.map f) := by
  intro l
  induction l with
  | nil => intro init; simp [strJoin]
  | cons a t ih =>
    intro init
    simp only [List.foldl_cons, List.map_cons, strJoin]
    rw [ih (body init a), hb init a, String.append_assoc]

/-- The per-column step of `parseTextFile` appends exactly the column's
block. -/
theorem parseTextFile_body_eq (parsedText : String) (col : Column) :
    (let afterHeader :=
      if col.messages.length ≠ 0 then parsedText ++ col.columnTitle ++ " \n" else parsedText
    let afterMessages := col.messages.foldl (fun acc message =>
      acc ++ ("- " ++ message.text ++ " (" ++ toString message.voteCount ++ ") \n")) afterHeader
    if col.messages.length ≠ 0 then afterMessages ++ "\n" else afterMessages) =
      parsedText ++ columnBlock col := by
  by_cases h : col.messages.length = 0
  · simp only [h, ne_eq, not_true_eq_false, if_false, columnBlock]
    rw [List.length_eq_zero.mp h]
    simp [strJoin, String.append_empty]
  · simp only [ne_eq, h, not_false_eq_true, if_true, columnBlock]
    rw [foldl_body_join messageLine
      (fun acc message =>
        acc ++ ("- " ++ message.text ++ " (" ++ toString message.voteCount ++ ") \n"))
      (fun s x => rfl) col.messages (parsedText ++ col.columnTitle ++ " \n")]
    simp [String.append_assoc]

/-- Layout of the text serializer: the title line followed by the
concatenation of the column blocks. -/
theorem parseTextFile_eq (boardTitle : String) (cols : List Column) :
    parseTextFile boardTitle cols = boardTitle ++ " \n\n" ++ strJoin (cols.map columnBlock) := by
  unfold parseTextFile
  rw [foldl_body_join columnBlock _ parseTextFile_body_eq]

/-- The per-row step of `parseCSV` appends exactly row `i`. -/
theorem parseCSV_row_body_eq (cols : List Column) (parsedText : String) (i : Nat) :
    (cols.foldl (fun acc col => acc ++ csvCellSpec i col) parsedText) ++ "\r\n" =
      parsedText ++ csvRowOf cols i := by
  rw [foldl_body_join (csvCellSpec i) (fun acc col => acc ++ csvCellSpec i col)
    (fun s x => rfl) cols parsedText]
  simp [csvRowOf, String.append_assoc]

/-- For a non-empty column list, the CSV output is the concatenation of rows
`0` to `maxMsgLen`. -/
theorem parseCSV_eq_rows (cols : List Column) (h : cols ≠ []) :
    parseCSV cols = strJoin ((List.range (maxMsgLen cols + 1)).map (csvRowOf cols)) := by
  unfold parseCSV
  rw [if_neg (by simp [h])]
  rw [foldl_body_join (csvRowOf cols)
    (fun parsedText i =>
      (cols.foldl (fun acc col => acc ++ csvCellSpec i col) parsedText) ++ "\r\n")
    (fun s i => parseCSV_row_body_eq cols s i) (List.range (maxMsgLen cols + 1)) ""]
  rw [String.empty_append]

/-- Row `0` of the CSV is the header row. -/
theorem csvRowOf_zero (cols : List Column) : csvRowOf cols 0 = csvHeaderRow cols := by
  have hmap : ∀ col ∈ cols, csvCellSpec 0 col = col.columnTitle ++ "," := by
    intro col _
    simp [csvCellSpec]
  simp only [csvRowOf, csvHeaderRow, List.map_congr_left hmap]

/-- Every later CSV row is the data row of its rank. -/
theorem csvRowOf_succ (cols : List Column) (j : Nat) :
    csvRowOf cols (j + 1) = csvDataRow cols (j + 1) := by
  have hmap : ∀ col ∈ cols, csvCellSpec (j + 1) col = csvDataCell col j := by
    intro col _
    simp [csvCellSpec, csvDataCell]
  simp only [csvRowOf, csvDataRow, Nat.add_sub_cancel, List.map_congr_left hmap]

/-- C4: the text serializer emits the title line, then the concatenation of
the column blocks, where the block of a column with at least one message is
its header line, one line per message in board order, and a blank line, and
the block of a column with zero messages is the empty string; on the
Scenario 1 board this yields exactly the expected output with no block for
"Needs work". -/
theorem text_serializer_layout (boardTitle : String) (cols : List Column) :
    parseTextFile boardTitle cols = boardTitle ++ " \n\n" ++ strJoin (cols.map columnBlock) ∧
    columnBlock ⟨"Needs work", []⟩ = "" ∧
    parseTextFile "Sprint 1" scenarioColumns =
      "Sprint 1 \n\nWent well \n- Shipped X (3) \n\n" :=
  ⟨parseTextFile_eq boardTitle cols, by decide, by decide⟩

/-- C8: the serializers are deterministic pure functions of the board: two
calls on equal boards return identical text and CSV outputs. -/
theorem serializers_deterministic (b1 b2 : Board) (h : b1 = b2) :
    parseTextFile b1.title b1.columns = parseTextFile b2.title b2.columns ∧
    toCSV b1 = toCSV b2 := by
  subst h
  exact ⟨rfl, rfl⟩

/-- Witness for C8 at the Scenario 1 board. -/
theorem serializers_deterministic_witness :
    parseTextFile (Board.mk "Sprint 1" scenarioColumns).title
        (Board.mk "Sprint 1" scenarioColumns).columns =
      parseTextFile (Board.mk "Sprint 1" scenarioColumns).title
        (Board.mk "Sprint 1" scenarioColumns).columns ∧
    toCSV (Board.mk "Sprint 1" scenarioColumns) = toCSV (Board.mk "Sprint 1" scenarioColumns) :=
  serializers_deterministic (Board.mk "Sprint 1" scenarioColumns)
    (Board.mk "Sprint 1" scenarioColumns) rfl

/-- C10: the CSV output never depends on the board title: boards with the same
columns serialize to the same CSV string whatever their titles are. -/
theorem csv_ignores_title (b1 b2 : Board) (h : b1.columns = b2.columns) :
    toCSV b1 = toCSV b2 := by
  unfold toCSV
  rw [h]

/-- Witness for C10: two boards sharing the Scenario 1 columns but carrying
different titles have identical CSV output. -/
theorem csv_ignores_title_witness :
    toCSV (Board.mk "Alpha" scenarioColumns) = toCSV (Board.mk "Beta" scenarioColumns) :=
  csv_ignores_title (Board.mk "Alpha" scenarioColumns) (Board.mk "Beta" scenarioColumns) rfl

/-- C1 counterexample: on a board with zero columns `parseCSV` returns the
empty string, which contains zero CRLF-terminated rows rather than the single
header row (`1 + 0` rows) required by the claim. -/
theorem csv_zero_columns_counterexample :
    parseCSV [] = "" ∧ crlfRows (parseCSV []) = 0 ∧ crlfRows (parseCSV []) ≠ 1 + maxMsgLen [] := by
  decide

/-- C1 (amended): for a board with at least one column the CSV serializer
produces exactly `1 + max(column message-list lengths)` rows, each being one
cell per column followed by the CRLF terminator; for a board with zero columns
it produces the empty string - zero rows, no header row - and does not
crash. -/
theorem csv_row_structure (cols : List Column) (h : cols ≠ []) :
    (parseCSV cols = strJoin ((List.range (1 + maxMsgLen cols)).map (csvRowOf cols)) ∧
      ((List.range (1 + maxMsgLen cols)).map (csvRowOf cols)).length = 1 + maxMsgLen cols ∧
      ∀ i, csvRowOf cols i = strJoin (cols.map (csvCellSpec i)) ++ "\r\n" ∧
        (cols.map (csvCellSpec i)).length = cols.length) ∧
    parseCSV [] = "" := by
  refine ⟨⟨?_, by simp, fun i => ⟨rfl, by simp⟩⟩, rfl⟩
  rw [Nat.add_comm 1 (maxMsgLen cols)]
  exact parseCSV_eq_rows cols h

/-- Witness for C1 (amended) at the Scenario 1 columns. -/
theorem csv_row_structure_witness :
    parseCSV scenarioColumns =
      strJoin ((List.range (1 + maxMsgLen scenarioColumns)).map (csvRowOf scenarioColumns)) :=
  (csv_row_structure scenarioColumns (by decide)).1.1

/-- C5: for a board with at least one column the CSV output is the header row
followed by one data row per message rank, where data row `r` holds, for each
column left to right, the message at index `r - 1` or an empty padding cell,
every row ending with CRLF; the Scenario 2 board yields exactly the expected
header and data row. -/
theorem csv_data_rows (cols : List Column) (h : cols ≠ []) :
    parseCSV cols =
      csvHeaderRow cols ++
        strJoin ((List.range (maxMsgLen cols)).map (fun j => csvDataRow cols (j + 1))) ∧
    csvHeaderRow scenarioColumns = "Went well,Needs work,\r\n" ∧
    csvDataRow scenarioColumns 1 = "Shipped X (3),,\r\n" ∧
    parseCSV scenarioColumns = "Went well,Needs work,\r\nShipped X (3),,\r\n" := by
  refine ⟨?_, by decide, by decide, by decide⟩
  rw [parseCSV_eq_rows cols h, List.range_succ_eq_map]
  simp only [List.map_cons, List.map_map, strJoin]
  rw [csvRowOf_zero]
  congr 1

/-- Witness for C5 at the Scenario 1 columns. -/
theorem csv_data_rows_witness :
    parseCSV scenarioColumns =
      csvHeaderRow scenarioColumns ++
        strJoin ((List.range (maxMsgLen scenarioColumns)).map
          (fun j => csvDataRow scenarioColumns (j + 1))) ∧
    csvHeaderRow scenarioColumns = "Went well,Needs work,\r\n" ∧
    csvDataRow scenarioColumns 1 = "Shipped X (3),,\r\n" ∧
    parseCSV scenarioColumns = "Went well,Needs work,\r\nShipped X (3),,\r\n" :=
  csv_data_rows scenarioColumns (by decide)

/-- Removing a message whose vote text does not parse leaves the filter loop's
output unchanged, wherever the message sits in the list. -/
theorem evalMessages_drop_unparsable (threshold : Int) (m : RawMessage)
    (hm : parseIntJS (jsTrim m.votesText) = none) :
    ∀ pre post : List RawMessage,
      evalMessages threshold (pre ++ m :: post) = evalMessages threshold (pre ++ post) := by
  intro pre
  induction pre with
  | nil =>
    intro post
    simp only [List.nil_append, evalMessages, hm]
  | cons a t ih =>
    intro post
    simp only [List.cons_append, evalMessages, List.append_eq, ih]

/-- C2: a message whose vote text is non-numeric (so `parseInt` yields `NaN`)
is silently dropped: the extracted board is the one obtained without that
message, and extraction still succeeds with a board instead of raising an
error. -/
theorem unparsable_votes_dropped (settings : Settings) (title header : String)
    (preCols postCols : List RawColumn) (pre post : List RawMessage) (m : RawMessage)
    (hm : parseIntJS (jsTrim m.votesText) = none)
    (ht : jsTrim title ≠ "") :
    extractBoard settings ⟨title, preCols ++ ⟨header, pre ++ m :: post⟩ :: postCols⟩ =
      extractBoard settings ⟨title, preCols ++ ⟨header, pre ++ post⟩ :: postCols⟩ ∧
    ∃ board,
      extractBoard settings ⟨title, preCols ++ ⟨header, pre ++ m :: post⟩ :: postCols⟩ =
        Except.ok board := by
  have hdrop := evalMessages_drop_unparsable settings.voteCount m hm pre post
  constructor
  · simp [extractBoard, ht, evalColumns, hdrop]
  · simp [extractBoard, ht]

/-- Witness for C2: a vote text of "abc" is dropped and extraction
succeeds. -/
theorem unparsable_votes_dropped_witness :
    extractBoard ⟨2⟩ ⟨"Board", [⟨"Col", [⟨"abc", "bad"⟩, ⟨"3", "keep"⟩]⟩]⟩ =
      extractBoard ⟨2⟩ ⟨"Board", [⟨"Col", [⟨"3", "keep"⟩]⟩]⟩ ∧
    ∃ board,
      extractBoard ⟨2⟩ ⟨"Board", [⟨"Col", [⟨"abc", "bad"⟩, ⟨"3", "keep"⟩]⟩]⟩ =
        Except.ok board :=
  unparsable_votes_dropped ⟨2⟩ "Board" "Col" [] [] [] [⟨"3", "keep"⟩] ⟨"abc", "bad"⟩
    (by decide) (by decide)

/-- Every message produced by the filter loop meets the threshold. -/
theorem mem_evalMessages_threshold (threshold : Int) (msgs : List RawMessage) (m : Message)
    (hm : m ∈ evalMessages threshold msgs) : threshold ≤ m.voteCount := by
  induction msgs with
  | nil => simp [evalMessages] at hm
  | cons a t ih =>
    simp only [evalMessages] at hm
    cases hpa : parseIntJS (jsTrim a.votesText) with
    | none =>
      simp only [hpa] at hm
      exact ih hm
    | some votes =>
      simp only [hpa] at hm
      by_cases hv : threshold ≤ votes
      · rw [if_pos hv] at hm
        rcases List.mem_cons.mp hm with h1 | h2
        · rw [h1]
          exact hv
        · exact ih h2
      · rw [if_neg hv] at hm
        exact ih hm

/-- A successful extraction carries exactly the evaluated columns. -/
theorem extractBoard_ok_columns (settings : Settings) (page : Page) (board : Board)
    (hb : extractBoard settings page = Except.ok board) :
    board.columns = evalColumns settings page.columns := by
  by_cases ht : jsTrim page.boardTitleText = ""
  · simp [extractBoard, ht] at hb
  · simp only [extractBoard, ht, if_neg, ite_false, Except.ok.injEq] at hb
    rw [← hb]

/-- C3: every message in every column of a successfully extracted board has a
vote count at least the configured threshold; a message below threshold never
appears in any column of the result. -/
theorem vote_threshold_invariant (settings : Settings) (page : Page) (board : Board)
    (hb : extractBoard settings page = Except.ok board)
    (col : Column) (hc : col ∈ board.columns)
    (m : Message) (hm : m ∈ col.messages) :
    settings.voteCount ≤ m.voteCount := by
  rw [extractBoard_ok_columns settings page board hb] at hc
  simp only [evalColumns, List.mem_map] at hc
  obtain ⟨raw, _, hcol⟩ := hc
  rw [← hcol] at hm
  exact mem_evalMessages_threshold settings.voteCount raw.messages m hm

/-- Witness for C3: with threshold 2, the vote-3 message survives and meets the
bound, while the vote-1 message of the same page is absent from the extracted
board. -/
theorem vote_threshold_invariant_witness :
    extractBoard ⟨2⟩ ⟨"Board", [⟨"Col", [⟨"3", "keep"⟩, ⟨"1", "low"⟩]⟩]⟩ =
      Except.ok ⟨"Board", [⟨"Col", [⟨"keep", 3⟩]⟩]⟩ ∧
    (⟨"Col", [⟨"keep", 3⟩]⟩ : Column) ∈ (⟨"Board", [⟨"Col", [⟨"keep", 3⟩]⟩]⟩ : Board).columns ∧
    (⟨"keep", 3⟩ : Message) ∈ (⟨"Col", [⟨"keep", 3⟩]⟩ : Column).messages ∧
    (2 : Int) ≤ (⟨"keep", 3⟩ : Message).voteCount :=
  ⟨by decide, by decide, by decide,
   vote_threshold_invariant ⟨2⟩ ⟨"Board", [⟨"Col", [⟨"3", "keep"⟩, ⟨"1", "low"⟩]⟩]⟩
     ⟨"Board", [⟨"Col", [⟨"keep", 3⟩]⟩]⟩ (by decide)
     ⟨"Col", [⟨"keep", 3⟩]⟩ (by decide) ⟨"keep", 3⟩ (by decide)⟩

/-- C6: when the board-title element's text trims to the empty string,
extraction fails with the extraction error and no board is produced, whatever
format is requested. -/
theorem empty_title_extraction_error (settings : Settings) (page : Page)
    (ht : jsTrim page.boardTitleText = "") :
    extractBoard settings page = Except.error RunError.extractionError ∧
    ∀ fileType, run settings page fileType = Except.error RunError.extractionError := by
  have hx : extractBoard settings page = Except.error RunError.extractionError := by
    simp [extractBoard, ht]
  refine ⟨hx, fun fileType => ?_⟩
  simp [run, hx]

/-- Witness for C6: a whitespace-only title makes extraction and the whole run
fail with the extraction error. -/
theorem empty_title_extraction_error_witness :
    extractBoard ⟨0⟩ ⟨"   ", []⟩ = Except.error RunError.extractionError ∧
    run ⟨0⟩ ⟨"   ", []⟩ "txt" = Except.error RunError.extractionError :=
  ⟨(empty_title_extraction_error ⟨0⟩ ⟨"   ", []⟩ (by decide)).1,
   (empty_title_extraction_error ⟨0⟩ ⟨"   ", []⟩ (by decide)).2 "txt"⟩

/-- C7: a format other than "txt" and "csv" is never coerced or defaulted: the
run never returns an output for it, and whenever extraction succeeds the run
fails with the unsupported-format error. -/
theorem unsupported_format_error (settings : Settings) (page : Page) (fileType : String)
    (h1 : fileType ≠ "txt") (h2 : fileType ≠ "csv") :
    (∀ out, run settings page fileType ≠ Except.ok out) ∧
    ∀ board, extractBoard settings page = Except.ok board →
      run settings page fileType = Except.error RunError.unsupportedFormat := by
  constructor
  · intro out hout
    unfold run at hout
    cases hx : extractBoard settings page with
    | error e =>
      rw [hx] at hout
      exact Except.noConfusion hout
    | ok board =>
      rw [hx] at hout
      simp [h1, h2] at hout
  · intro board hb
    unfold run
    rw [hb]
    simp [h1, h2]

/-- Witness for C7: requesting format "pdf" yields the unsupported-format
error and never an output. -/
theorem unsupported_format_error_witness :
    run ⟨0⟩ ⟨"T", []⟩ "pdf" ≠ Except.ok ("", "") ∧
    run ⟨0⟩ ⟨"T", []⟩ "pdf" = Except.error RunError.unsupportedFormat :=
  ⟨(unsupported_format_error ⟨0⟩ ⟨"T", []⟩ "pdf" (by decide) (by decide)).1 ("", ""),
   (unsupported_format_error ⟨0⟩ ⟨"T", []⟩ "pdf" (by decide) (by decide)).2
     ⟨"T", []⟩ (by decide)⟩

/-- C9: the filter drops messages but never a column: extraction produces
exactly one column per page column, in page order, with its trimmed header,
for every threshold; a fully filtered-out column therefore still appears
(with an empty message list) and still contributes its cell to the CSV header
row. -/
theorem columns_never_dropped (settings : Settings) (columns : List RawColumn) :
    (evalColumns settings columns).length = columns.length ∧
    (evalColumns settings columns).map Column.columnTitle =
      columns.map (fun col => jsTrim col.headerText) ∧
    (∀ i : Nat, (evalColumns settings columns)[i]? =
      (columns[i]?).map
        (fun col =>
          (⟨jsTrim col.headerText, evalMessages settings.voteCount col.messages⟩ : Column))) ∧
    csvHeaderRow (evalColumns settings columns) =
      strJoin (columns.map (fun col => jsTrim col.headerText ++ ",")) ++ "\r\n" := by
  refine ⟨by simp [evalColumns], by simp [evalColumns, List.map_map], ?_, ?_⟩
  · intro i
    simp [evalColumns, List.getElem?_map]
  · simp [csvHeaderRow, evalColumns, List.map_map, Function.comp_def]
